import Mathlib

/-!
Verification of the question-answering pipeline: the MCP formatter tool
(`src/server.py`), the LangGraph agent pipeline (`src/src/agent.py`) and the
batch driver (`src/main.py`), embedded shallowly in Lean.

External collaborators (the chat-completion endpoint and the possibility that
the formatter tool call raises) are modelled as function parameters returning
`Except String String`; the availability of the MCP module (import success)
is a `Bool` parameter.
-/

namespace Spec2Proof

/-- `format_answer` from `src/src/server.py`: wraps the text with a fixed
markdown heading and a trailing attribution marker. -/
def format_answer (text : String) : String :=
  "### 분석 결과\n\n" ++ text ++ "\n\n---\n*vLLM-MCP 서버에 의해 처리됨*"

/-- The configuration mapping loaded from `config.json`; the fields the
pipeline reads, each `none` when the key is absent. -/
structure Config where
  model_name : Option String := none
  openai_api_key : Option String := none
  openai_api_base : Option String := none
  use_mcp : Option Bool := none
deriving DecidableEq, Repr

/-- `AgentState` from `src/src/agent.py`: the LangGraph state shared by the
workflow nodes. Every key is assigned in `initial_state`, so the fields are
total. -/
structure AgentState where
  question : String
  answer : String
  raw_answer : String
  config : Config
  use_mcp : Bool
deriving DecidableEq, Repr

/-- A partial state update as returned by a LangGraph node: only the keys
present in the returned dict (`some`) are merged into the state. -/
structure StateUpdate where
  question : Option String := none
  answer : Option String := none
  raw_answer : Option String := none
  config : Option Config := none
  use_mcp : Option Bool := none
deriving DecidableEq, Repr

/-- LangGraph's merge of a node's returned dict into the shared state. -/
def applyUpdate (s : AgentState) (u : StateUpdate) : AgentState :=
  { question := u.question.getD s.question
    answer := u.answer.getD s.answer
    raw_answer := u.raw_answer.getD s.raw_answer
    config := u.config.getD s.config
    use_mcp := u.use_mcp.getD s.use_mcp }

/-- `call_model` from `src/src/agent.py`: invokes the LLM (the external
collaborator `llm`) on the state's question; on success stores the response
in both `raw_answer` and `answer`; an exception from the call propagates. -/
def call_model (llm : String → Except String String) (state : AgentState) :
    Except String StateUpdate :=
  match llm state.question with
  | .ok response => .ok { raw_answer := some response, answer := some response }
  | .error e => .error e

/-- `call_mcp_format` from `src/src/agent.py`: when MCP is unavailable,
returns the raw answer unchanged; otherwise calls the formatter tool `fmt`
on `raw_answer` and, on an exception, falls back to the raw answer. -/
def call_mcp_format (mcpAvailable : Bool) (fmt : String → Except String String)
    (state : AgentState) : StateUpdate :=
  if !mcpAvailable then
    { answer := some state.raw_answer }
  else
    match fmt state.raw_answer with
    | .ok formatted_answer => { answer := some formatted_answer }
    | .error _ => { answer := some state.raw_answer }

/-- LangGraph's `END` sentinel node name. -/
def END : String := "__end__"

/-- `should_use_mcp` from `src/src/agent.py`: the conditional-routing
function; reads the state's `use_mcp` flag and the global availability. -/
def should_use_mcp (mcpAvailable : Bool) (state : AgentState) : String :=
  if state.use_mcp && mcpAvailable then "mcp_format" else END

/-- `create_agent_graph` + `app.invoke` from `src/src/agent.py`: entry node
`llm` runs `call_model`; when MCP is available the conditional edge routes
through `should_use_mcp` to `mcp_format` or to `END`; otherwise `llm` is
wired straight to `END`. -/
def invokeGraph (mcpAvailable : Bool) (llm fmt : String → Except String String)
    (state : AgentState) : Except String AgentState :=
  match call_model llm state with
  | .error e => .error e
  | .ok u =>
    let s1 := applyUpdate state u
    if mcpAvailable then
      if should_use_mcp mcpAvailable s1 = "mcp_format" then
        .ok (applyUpdate s1 (call_mcp_format mcpAvailable fmt s1))
      else
        .ok s1
    else
      .ok s1

/-- The `initial_state` dict built inside `run_agent`: `use_mcp` resolves to
`config.get("use_mcp", True) and MCP_AVAILABLE`. -/
def initial_state (mcpAvailable : Bool) (question : String) (config : Config) :
    AgentState :=
  { question := question
    config := config
    use_mcp := config.use_mcp.getD true && mcpAvailable
    answer := ""
    raw_answer := "" }

/-- `run_agent` from `src/src/agent.py`: builds the graph, runs it from the
initial state, and returns the final `answer`; an exception from the LLM call
propagates to the caller. -/
def run_agent (mcpAvailable : Bool) (llm fmt : String → Except String String)
    (question : String) (config : Config) : Except String String :=
  match invokeGraph mcpAvailable llm fmt (initial_state mcpAvailable question config) with
  | .ok result => .ok result.answer
  | .error e => .error e

/-- One item of `questions.json` as the batch driver reads it: `item.get("id")`
and `item.get("question")`, each `none` when the key is absent. -/
structure QItem where
  id : Option String
  question : Option String
deriving DecidableEq, Repr

/-- A result record appended by the batch driver in `src/main.py`: either
`{id, question, answer}` or `{id, question, error}`. -/
inductive Record where
  | ok (id : Option String) (question : String) (answer : String)
  | err (id : Option String) (question : String) (error : String)
deriving DecidableEq, Repr

/-- The body of the batch loop for one item whose `question` key is present:
run the pipeline inside `try` and append a success or an error record.
(The `getD ""` is irrelevant when the question is present.) -/
def recordFor (run : String → Except String String) (item : QItem) : Record :=
  let q := item.question.getD ""
  match run q with
  | .ok answer => .ok item.id q answer
  | .error e => .err item.id q e

/-- The `for item in questions` loop of `main` in `src/main.py`. Before the
`try` block, the progress message renders `question[:30]`; when the
`question` key is absent that raises `TypeError` outside the per-question
error capture, so the loop aborts: the result is the records accumulated so
far together with `some remaining` (the unprocessed suffix, starting at the
offending item); `none` means the loop ran to completion. -/
def batchLoop (run : String → Except String String) :
    List QItem → (List Record × Option (List QItem))
  | [] => ([], none)
  | item :: rest =>
    match item.question with
    | none => ([], some (item :: rest))
    | some q =>
      let record : Record :=
        match run q with
        | .ok answer => .ok item.id q answer
        | .error e => .err item.id q e
      let tail := batchLoop run rest
      (record :: tail.1, tail.2)

/-- The observable outcome of one run of `main`: either `answers.json` is
written with the result records, or the run produces no output (early return
on missing configuration or questions, or an uncaught exception). -/
inductive RunOutcome where
  | noOutput
  | output (records : List Record)
deriving DecidableEq, Repr

/-- `main` from `src/main.py`: aborts with no output when the configuration
is missing or the question list is empty; otherwise runs the batch loop and
writes the records unless the loop raised. -/
def mainRun (config : Option Config) (questions : List QItem)
    (mcpAvailable : Bool) (llm fmt : String → Except String String) : RunOutcome :=
  match config with
  | none => .noOutput
  | some cfg =>
    if questions.isEmpty then .noOutput
    else
      match batchLoop (fun q => run_agent mcpAvailable llm fmt q cfg) questions with
      | (records, none) => .output records
      | (_, some _) => .noOutput

/-! ## Helper lemmas -/

theorem call_model_ok_config (llm : String → Except String String)
    (s : AgentState) (u : StateUpdate) (h : call_model llm s = .ok u) :
    u.config = none := by
  unfold call_model at h
  cases hm : llm s.question <;> rw [hm] at h <;> simp at h
  rw [← h]

theorem call_mcp_format_config (m : Bool) (fmt : String → Except String String)
    (s : AgentState) : (call_mcp_format m fmt s).config = none := by
  unfold call_mcp_format
  split
  · rfl
  · cases fmt s.raw_answer <;> simp

theorem applyUpdate_config (s : AgentState) (u : StateUpdate)
    (h : u.config = none) : (applyUpdate s u).config = s.config := by
  simp [applyUpdate, h]

theorem batchLoop_all_present (run : String → Except String String)
    (qs : List QItem) (h : ∀ x ∈ qs, x.question.isSome) :
    batchLoop run qs = (qs.map (recordFor run), none) := by
  induction qs with
  | nil => rfl
  | cons item rest ih =>
    obtain ⟨q, hq⟩ := Option.isSome_iff_exists.mp (h item (by simp))
    have hrest : ∀ x ∈ rest, x.question.isSome := fun x hx => h x (by simp [hx])
    simp only [batchLoop, hq, ih hrest, List.map_cons, recordFor, Option.getD_some]

theorem batchLoop_append_present (run : String → Except String String)
    (pre rest : List QItem) (h : ∀ x ∈ pre, x.question.isSome) :
    batchLoop run (pre ++ rest) =
      (pre.map (recordFor run) ++ (batchLoop run rest).1, (batchLoop run rest).2) := by
  induction pre with
  | nil => simp
  | cons item tail ih =>
    obtain ⟨q, hq⟩ := Option.isSome_iff_exists.mp (h item (by simp))
    have htail : ∀ x ∈ tail, x.question.isSome := fun x hx => h x (by simp [hx])
    simp only [List.cons_append, batchLoop, hq, List.append_eq, ih htail,
      List.map_cons, List.cons_append, recordFor, Option.getD_some]

/-! ## Claim theorems -/

/-- C1: if the Answer Generator succeeds, the formatter route is taken
(formatter available and not disabled by configuration) and the Formatter
succeeds, the pipeline returns `format raw_answer`, where the default
formatter wraps its input with the fixed heading and trailing attribution
marker. -/
theorem formatter_route_returns_formatted
    (llm fmt : String → Except String String) (q : String) (cfg : Config)
    (raw : String)
    (hcfg : cfg.use_mcp.getD true = true)
    (hllm : llm q = .ok raw)
    (hfmt : fmt raw = .ok (format_answer raw)) :
    run_agent true llm fmt q cfg = .ok (format_answer raw) ∧
    format_answer raw =
      "### 분석 결과\n\n" ++ raw ++ "\n\n---\n*vLLM-MCP 서버에 의해 처리됨*" := by
  refine ⟨?_, rfl⟩
  simp [run_agent, invokeGraph, initial_state, call_model, applyUpdate,
    should_use_mcp, call_mcp_format, hcfg, hllm, hfmt]

theorem formatter_route_returns_formatted_witness :
    run_agent true (fun _ => .ok "4") (fun s => .ok (format_answer s))
        "What is 2+2?" {} = .ok (format_answer "4") ∧
    format_answer "4" =
      "### 분석 결과\n\n" ++ "4" ++ "\n\n---\n*vLLM-MCP 서버에 의해 처리됨*" :=
  formatter_route_returns_formatted (fun _ => .ok "4")
    (fun s => .ok (format_answer s)) "What is 2+2?" {} "4" rfl rfl rfl

/-- C2: if the Answer Generator succeeds but the Formatter call raises, the
pipeline still returns success with the unformatted `raw_answer`; the
formatter error is never surfaced as a failure. -/
theorem formatter_error_falls_back_to_raw
    (llm fmt : String → Except String String) (q : String) (cfg : Config)
    (raw e : String)
    (hcfg : cfg.use_mcp.getD true = true)
    (hllm : llm q = .ok raw)
    (hfmt : fmt raw = .error e) :
    run_agent true llm fmt q cfg = .ok raw := by
  simp [run_agent, invokeGraph, initial_state, call_model, applyUpdate,
    should_use_mcp, call_mcp_format, hcfg, hllm, hfmt]

theorem formatter_error_falls_back_to_raw_witness :
    run_agent true (fun _ => .ok "4") (fun _ => .error "tool crashed")
        "What is 2+2?" {} = .ok "4" :=
  formatter_error_falls_back_to_raw (fun _ => .ok "4")
    (fun _ => .error "tool crashed") "What is 2+2?" {} "4" "tool crashed"
    rfl rfl rfl

/-- C3: if the Answer Generator fails, the pipeline returns that failure,
the batch driver's record for the question is an `error` record (the `err`
constructor carries no answer), and every subsequent question in the batch
still produces its own record. -/
theorem generator_failure_is_isolated
    (m : Bool) (llm fmt : String → Except String String) (q e : String)
    (cfg : Config) (qid : Option String) (pre post : List QItem)
    (hllm : llm q = .error e)
    (hpre : ∀ x ∈ pre, x.question.isSome)
    (hpost : ∀ x ∈ post, x.question.isSome) :
    run_agent m llm fmt q cfg = .error e ∧
    batchLoop (fun s => run_agent m llm fmt s cfg)
        (pre ++ ⟨qid, some q⟩ :: post) =
      (pre.map (recordFor (fun s => run_agent m llm fmt s cfg)) ++
         Record.err qid q e ::
           post.map (recordFor (fun s => run_agent m llm fmt s cfg)), none) := by
  have hrun : run_agent m llm fmt q cfg = .error e := by
    simp [run_agent, invokeGraph, initial_state, call_model, hllm]
  refine ⟨hrun, ?_⟩
  rw [batchLoop_append_present _ _ _ hpre]
  simp only [batchLoop, hrun, batchLoop_all_present _ post hpost]

theorem generator_failure_is_isolated_witness :
    run_agent true (fun _ => .error "endpoint unreachable")
        (fun s => .ok (format_answer s)) "What is 2+2?" {} =
      .error "endpoint unreachable" ∧
    batchLoop
        (fun s => run_agent true (fun _ => .error "endpoint unreachable")
          (fun t => .ok (format_answer t)) s {})
        ([⟨some "q0", some "Why?"⟩] ++
          ⟨some "q1", some "What is 2+2?"⟩ :: [⟨some "q2", some "How?"⟩]) =
      ([⟨some "q0", some "Why?"⟩].map
          (recordFor (fun s => run_agent true (fun _ => .error "endpoint unreachable")
            (fun t => .ok (format_answer t)) s {})) ++
        Record.err (some "q1") "What is 2+2?" "endpoint unreachable" ::
          [⟨some "q2", some "How?"⟩].map
            (recordFor (fun s => run_agent true (fun _ => .error "endpoint unreachable")
              (fun t => .ok (format_answer t)) s {})), none) :=
  generator_failure_is_isolated true (fun _ => .error "endpoint unreachable")
    (fun s => .ok (format_answer s)) "What is 2+2?" "endpoint unreachable" {}
    (some "q1") [⟨some "q0", some "Why?"⟩] [⟨some "q2", some "How?"⟩]
    rfl (by simp) (by simp)

/-- C4: the effective flag is resolved at pipeline start as
`config.use_mcp AND availability`, it defaults to enabled when the
configuration omits the setting, and the routing branch depends only on the
state's resolved flag, not on the configuration. -/
theorem use_formatter_resolution
    (m : Bool) (q : String) (cfg : Config) :
    (initial_state m q cfg).use_mcp = (cfg.use_mcp.getD true && m) ∧
    (cfg.use_mcp = none → (initial_state m q cfg).use_mcp = m) ∧
    (∀ s s' : AgentState, s.use_mcp = s'.use_mcp →
      should_use_mcp m s = should_use_mcp m s') := by
  refine ⟨rfl, ?_, ?_⟩
  · intro h
    simp [initial_state, h]
  · intro s s' h
    simp [should_use_mcp, h]

theorem use_formatter_resolution_witness :
    (initial_state true "q" {}).use_mcp = true ∧
    should_use_mcp true ⟨"q", "", "", ⟨none, none, none, some false⟩, true⟩ =
      should_use_mcp true ⟨"q", "", "", {}, true⟩ :=
  ⟨(use_formatter_resolution true "q" {}).2.1 rfl,
   (use_formatter_resolution true "q" {}).2.2
     ⟨"q", "", "", ⟨none, none, none, some false⟩, true⟩
     ⟨"q", "", "", {}, true⟩ rfl⟩

/-- C5: if the Answer Generator succeeds and the Formatter is unavailable at
start or disabled by configuration, the pipeline returns the raw answer
unchanged (for every formatter implementation, since the formatting node is
never entered). -/
theorem disabled_formatter_returns_raw
    (m : Bool) (llm fmt : String → Except String String) (q : String)
    (cfg : Config) (raw : String)
    (hllm : llm q = .ok raw)
    (hdis : m = false ∨ cfg.use_mcp = some false) :
    run_agent m llm fmt q cfg = .ok raw := by
  rcases hdis with h | h
  · subst h
    simp [run_agent, invokeGraph, initial_state, call_model, applyUpdate, hllm]
  · simp [run_agent, invokeGraph, initial_state, call_model, applyUpdate,
      should_use_mcp, END, hllm, h]

theorem disabled_formatter_returns_raw_witness :
    run_agent false (fun _ => .ok "4") (fun s => .ok (format_answer s))
        "What is 2+2?" {} = .ok "4" :=
  disabled_formatter_returns_raw false (fun _ => .ok "4")
    (fun s => .ok (format_answer s)) "What is 2+2?" {} "4" rfl (Or.inl rfl)

/-- C6: the default formatter is not idempotent: applying it twice nests the
fixed heading and marker, so the result always differs from a single
application. -/
theorem format_answer_not_idempotent (x : String) :
    format_answer (format_answer x) ≠ format_answer x := by
  intro h
  have hlen := congrArg String.length h
  have h1 : ("### 분석 결과\n\n" : String).length = 11 := rfl
  have h2 : ("\n\n---\n*vLLM-MCP 서버에 의해 처리됨*" : String).length = 27 := rfl
  simp [format_answer, String.length_append, h1, h2] at hlen
  omega

theorem format_answer_not_idempotent_witness :
    format_answer (format_answer "4") ≠ format_answer "4" :=
  format_answer_not_idempotent "4"

/-- C7: for a list of well-formed questions (each item has its `question`
key), the batch driver completes without aborting and produces exactly one
record per input item, in input order, each record built from that item's
id and question text with either an answer or an error. -/
theorem one_record_per_question_in_order
    (run : String → Except String String) (qs : List QItem)
    (h : ∀ x ∈ qs, x.question.isSome) :
    batchLoop run qs = (qs.map (recordFor run), none) ∧
    (batchLoop run qs).1.length = qs.length := by
  have hb := batchLoop_all_present run qs h
  exact ⟨hb, by rw [hb]; simp⟩

theorem one_record_per_question_in_order_witness :
    batchLoop (fun s => .ok s)
        [⟨some "q1", some "a"⟩, ⟨some "q2", some "b"⟩] =
      ([⟨some "q1", some "a"⟩, ⟨some "q2", some "b"⟩].map
        (recordFor (fun s => .ok s)), none) ∧
    (batchLoop (fun s => .ok s)
        [⟨some "q1", some "a"⟩, ⟨some "q2", some "b"⟩]).1.length =
      ([⟨some "q1", some "a"⟩, ⟨some "q2", some "b"⟩] : List QItem).length :=
  one_record_per_question_in_order (fun s => .ok s)
    [⟨some "q1", some "a"⟩, ⟨some "q2", some "b"⟩] (by simp)

/-- C8: when the configuration record is missing, the whole run fails before
any question is processed and no result records are produced, for every
question list and every behavior of the external collaborators. -/
theorem missing_config_is_fatal
    (qs : List QItem) (m : Bool) (llm fmt : String → Except String String) :
    mainRun none qs m llm fmt = .noOutput := rfl

/-- C9: the configuration is never mutated by pipeline execution: whatever
state the workflow returns carries the same configuration it started with
(no node's update touches the `config` key). -/
theorem config_never_mutated
    (m : Bool) (llm fmt : String → Except String String)
    (s s' : AgentState) (h : invokeGraph m llm fmt s = .ok s') :
    s'.config = s.config := by
  unfold invokeGraph at h
  cases hc : call_model llm s with
  | error e => rw [hc] at h; simp at h
  | ok u =>
    rw [hc] at h
    have hu : u.config = none := call_model_ok_config llm s u hc
    have h1 : (applyUpdate s u).config = s.config := applyUpdate_config s u hu
    simp only [] at h
    split at h
    · split at h
      · cases h
        rw [applyUpdate_config _ _ (call_mcp_format_config m fmt (applyUpdate s u))]
        exact h1
      · cases h
        exact h1
    · cases h
      exact h1

theorem config_never_mutated_witness :
    (AgentState.mk "q" (format_answer "4") "4" {} true).config =
      (AgentState.mk "q" "" "" {} true).config :=
  config_never_mutated true (fun _ => .ok "4") (fun s => .ok (format_answer s))
    (AgentState.mk "q" "" "" {} true)
    (AgentState.mk "q" (format_answer "4") "4" {} true) rfl

/-- C10: an item whose `question` key is absent makes the driver raise while
rendering the progress message, before the per-question error capture: the
records produced are exactly those of the preceding items, no record exists
for the offending item, and iteration stops with the rest unprocessed. -/
theorem missing_question_aborts_batch
    (run : String → Except String String) (pre : List QItem) (bad : QItem)
    (post : List QItem)
    (hpre : ∀ x ∈ pre, x.question.isSome)
    (hbad : bad.question = none) :
    batchLoop run (pre ++ bad :: post) =
      (pre.map (recordFor run), some (bad :: post)) := by
  rw [batchLoop_append_present _ _ _ hpre]
  simp [batchLoop, hbad]

theorem missing_question_aborts_batch_witness :
    batchLoop (fun s => .ok s)
        ([⟨some "q1", some "a"⟩] ++ ⟨some "q2", none⟩ :: [⟨some "q3", some "c"⟩]) =
      ([⟨some "q1", some "a"⟩].map (recordFor (fun s => .ok s)),
        some (⟨some "q2", none⟩ :: [⟨some "q3", some "c"⟩])) :=
  missing_question_aborts_batch (fun s => .ok s) [⟨some "q1", some "a"⟩]
    ⟨some "q2", none⟩ [⟨some "q3", some "c"⟩] (by simp) rfl

end Spec2Proof
